import Mathlib

/-!
Verification development for the CareStock Watch inventory dashboard.

The file shallowly embeds the numeric core of the repository:
the Cortex-style demand forecast (`ai_component_additions.py`),
the EOQ / safety stock / reorder point formulas, the Actions-page
stock-adjustment workflow and risk export (`snowflake_core/streamlit_app.py`),
and the low-stock rule of the smart-alert page
(`Y_CGZG820LDNV3KF/streamlit_app.py`).

Numbers are modelled exactly: rational arithmetic where the source is
rational, real arithmetic with `Real.sqrt` for the square-root formulas.
The Python built-in `round(x, 1)` rounds half to even; `pyRound1` below
models it at one decimal place.
-/

namespace CareStock

section Rounding

variable {α : Type*} [LinearOrderedField α] [FloorRing α]

/-- Round to the nearest integer with ties going to the even integer:
the rounding rule of the Python built-in `round` (and of numpy), used by
every `round(..., 1)` call in the source. On a tie `x = n + 1/2` the
value `2 * round (x / 2)` is the even neighbour of `x`. -/
def rhe (x : α) : ℤ :=
  if Int.fract x = 1 / 2 then 2 * round (x / 2) else round x

/-- Model of the Python call `round(x, 1)`: half-to-even at one decimal. -/
def pyRound1 (x : α) : α :=
  (rhe (10 * x) : α) / 10

theorem eq_floor_add_half {x : α} (h : Int.fract x = 1 / 2) :
    x = (⌊x⌋ : α) + 1 / 2 := by
  have hx := Int.floor_add_fract x
  rw [h] at hx
  linarith

/-- On an exact tie `n + 1/2`, half-to-even rounding lands on the even
neighbour: `n` when `n` is even, `n + 1` when `n` is odd. -/
theorem rhe_half (n : ℤ) :
    rhe ((n : α) + 1 / 2) = if Even n then n else n + 1 := by
  have hfr : Int.fract ((n : α) + 1 / 2) = 1 / 2 := by
    rw [Int.fract_int_add]
    exact Int.fract_eq_self.mpr (by norm_num)
  rw [rhe, if_pos hfr]
  rcases Int.even_or_odd n with he | ho
  · rw [if_pos he, round_eq]
    obtain ⟨m, hm⟩ := he
    subst hm
    have harg : (((m + m : ℤ) : α) + 1 / 2) / 2 + 1 / 2 = (m : α) + 3 / 4 := by
      push_cast; ring
    rw [harg]
    have hfl : ⌊(m : α) + 3 / 4⌋ = m := by
      rw [Int.floor_eq_iff]
      constructor
      · linarith
      · push_cast; linarith
    rw [hfl]; omega
  · obtain ⟨m, hm⟩ := ho
    have hne : ¬ Even n := by
      rw [Int.even_iff]; omega
    rw [if_neg hne, round_eq]
    subst hm
    have harg : (((2 * m + 1 : ℤ) : α) + 1 / 2) / 2 + 1 / 2 = (m : α) + 5 / 4 := by
      push_cast; ring
    rw [harg]
    have hfl : ⌊(m : α) + 5 / 4⌋ = m + 1 := by
      rw [Int.floor_eq_iff]
      constructor
      · push_cast; linarith
      · push_cast; linarith
    rw [hfl]; omega

theorem rhe_intCast (n : ℤ) : rhe ((n : α)) = n := by
  rw [rhe, if_neg, round_intCast]
  rw [Int.fract_intCast]
  norm_num

theorem rhe_eq_of_lt_half (n : ℤ) {x : α} (h1 : (n : α) ≤ x)
    (h2 : x < (n : α) + 1 / 2) : rhe x = n := by
  have hfl : ⌊x⌋ = n := by
    rw [Int.floor_eq_iff]
    exact ⟨h1, by push_cast; linarith⟩
  have hfr : Int.fract x ≠ 1 / 2 := by
    have hx : Int.fract x = x - (n : α) := by
      rw [← Int.self_sub_floor, hfl]
    rw [hx]
    intro hc
    have : x = (n : α) + 1 / 2 := by linarith
    linarith
  rw [rhe, if_neg hfr, round_eq, Int.floor_eq_iff]
  constructor
  · push_cast; linarith
  · push_cast; linarith

theorem rhe_eq_of_gt_half (n : ℤ) {x : α} (h1 : (n : α) + 1 / 2 < x)
    (h2 : x ≤ (n : α) + 1) : rhe x = n + 1 := by
  have hfr : Int.fract x ≠ 1 / 2 := by
    rcases eq_or_lt_of_le h2 with he | hlt
    · rw [he]
      have hc : ((n : α) + 1) = ((n + 1 : ℤ) : α) := by push_cast; ring
      rw [hc, Int.fract_intCast]
      norm_num
    · have hfl : ⌊x⌋ = n := by
        rw [Int.floor_eq_iff]
        exact ⟨by linarith, by push_cast; linarith⟩
      have hx : Int.fract x = x - (n : α) := by
        rw [← Int.self_sub_floor, hfl]
      rw [hx]
      intro hc
      linarith
  rw [rhe, if_neg hfr, round_eq, Int.floor_eq_iff]
  constructor
  · push_cast; linarith
  · push_cast; linarith

theorem rhe_eq_of_fract_half {x : α} (h : Int.fract x = 1 / 2) :
    rhe x = if Even ⌊x⌋ then ⌊x⌋ else ⌊x⌋ + 1 := by
  have hx := eq_floor_add_half h
  conv_lhs => rw [hx]
  exact rhe_half ⌊x⌋

theorem round_eq_of_fract_half {x : α} (h : Int.fract x = 1 / 2) :
    round x = ⌊x⌋ + 1 := by
  have hx := eq_floor_add_half h
  rw [round_eq]
  conv_lhs => rw [hx]
  have hc : (⌊x⌋ : α) + 1 / 2 + 1 / 2 = ((⌊x⌋ + 1 : ℤ) : α) := by push_cast; ring
  rw [hc, Int.floor_intCast]

theorem rhe_le_round (x : α) : rhe x ≤ round x := by
  by_cases h : Int.fract x = 1 / 2
  · rw [rhe_eq_of_fract_half h, round_eq_of_fract_half h]
    split
    · omega
    · omega
  · rw [rhe, if_neg h]

theorem round_mono_le {x y : α} (h : x ≤ y) : round x ≤ round y := by
  rw [round_eq, round_eq]
  exact Int.floor_mono (by linarith)

/-- Half-to-even rounding is monotone. -/
theorem rhe_mono {x y : α} (h : x ≤ y) : rhe x ≤ rhe y := by
  rcases eq_or_lt_of_le h with rfl | hlt
  · exact le_rfl
  · by_cases hy : Int.fract y = 1 / 2 ∧ Even ⌊y⌋
    · obtain ⟨hy1, hy2⟩ := hy
      have hry : rhe y = ⌊y⌋ := by
        rw [rhe_eq_of_fract_half hy1, if_pos hy2]
      have hrx : rhe x ≤ round x := rhe_le_round x
      have hxy : round x ≤ ⌊y⌋ := by
        rw [round_eq]
        have hyv := eq_floor_add_half hy1
        have hlt2 : x + 1 / 2 < (⌊y⌋ : α) + 1 := by
          rw [hyv] at hlt; linarith
        have hfl : ⌊x + 1 / 2⌋ < ⌊y⌋ + 1 :=
          Int.floor_lt.mpr (by push_cast; linarith)
        omega
      rw [hry]; omega
    · have hry : rhe y = round y := by
        by_cases hf : Int.fract y = 1 / 2
        · have hne : ¬ Even ⌊y⌋ := fun he => hy ⟨hf, he⟩
          rw [rhe_eq_of_fract_half hf, if_neg hne,
            round_eq_of_fract_half hf]
        · rw [rhe, if_neg hf]
      have h1 := rhe_le_round x
      have h2 := round_mono_le h
      omega

theorem rhe_nonneg {x : α} (h : 0 ≤ x) : 0 ≤ rhe x := by
  have h0 : rhe (0 : α) = 0 := by
    simpa using rhe_intCast (α := α) 0
  calc (0 : ℤ) = rhe (0 : α) := h0.symm
    _ ≤ rhe x := rhe_mono h

theorem pyRound1_mono {x y : α} (h : x ≤ y) : pyRound1 x ≤ pyRound1 y := by
  rw [pyRound1, pyRound1]
  have h1 : rhe (10 * x) ≤ rhe (10 * y) := rhe_mono (by linarith)
  have h2 : ((rhe (10 * x) : ℤ) : α) ≤ ((rhe (10 * y) : ℤ) : α) :=
    Int.cast_le.mpr h1
  gcongr

theorem pyRound1_nonneg {x : α} (h : 0 ≤ x) : 0 ≤ pyRound1 x := by
  rw [pyRound1]
  have h1 : (0 : ℤ) ≤ rhe (10 * x) := rhe_nonneg (by linarith)
  have h2 : (0 : α) ≤ ((rhe (10 * x) : ℤ) : α) := by exact_mod_cast h1
  positivity

theorem pyRound1_zero : pyRound1 (0 : α) = 0 := by
  rw [pyRound1, mul_zero]
  have h0 : rhe (0 : α) = 0 := by
    simpa using rhe_intCast (α := α) 0
  rw [h0]
  norm_num

end Rounding

/-- Result record of `cortex_demand_forecast` in
`snowflake_core/ai_component_additions.py`. -/
structure Forecast where
  forecast_units : ℚ
  lower_bound : ℚ
  upper_bound : ℚ
  explanation : String
  deriving DecidableEq, Repr

/-- Python format specifier `:.1f`: one decimal, half-to-even. -/
def fmt1 (x : ℚ) : String :=
  let r := rhe (10 * x)
  (if r < 0 then "-" else "") ++ toString (r.natAbs / 10) ++ "." ++
    toString (r.natAbs % 10)

/-- Embedding of `cortex_demand_forecast` from
`snowflake_core/ai_component_additions.py` (the Python default
`horizon_days = 7` is passed explicitly by callers here). -/
def cortex_demand_forecast (avg_daily_demand : ℚ) (lead_time_days : ℚ)
    (horizon_days : ℚ) : Forecast :=
  let forecast_units := avg_daily_demand * horizon_days
  let lower_bound := forecast_units * 0.8
  let upper_bound := forecast_units * 1.2
  let explanation :=
    "Forecast uses recent average demand (" ++ fmt1 avg_daily_demand ++
      "/day) projected over " ++ toString horizon_days ++
      " days. Lead time considered: " ++ toString lead_time_days ++
      " days. Confidence band reflects demand variability."
  { forecast_units := pyRound1 forecast_units
    lower_bound := pyRound1 lower_bound
    upper_bound := pyRound1 upper_bound
    explanation := explanation }

/-- A pandas row as seen by `safe_cortex_forecast`: each field access
`row["..."]` can raise `KeyError` when the field is absent, modelled by
`Option`. -/
structure PRow where
  avg_daily_demand : Option ℚ
  lead_time_days : Option ℚ
  deriving DecidableEq, Repr

/-- Field access `row[key]`: raises (`.error`) when the field is missing. -/
def getField : Option ℚ → Except String ℚ
  | some v => Except.ok v
  | none => Except.error "KeyError"

/-- Embedding of `safe_cortex_forecast` (`snowflake_core/streamlit_app.py`
lines 317-330): the `try` block reads both fields and calls the forecast;
the `except` handler builds the fallback record, itself reading
`row["AVG_DAILY_DEMAND"]` again, so a missing demand field escapes the
handler. -/
def safe_cortex_forecast (r : PRow) : Except String Forecast :=
  let attempt : Except String Forecast := do
    let a ← getField r.avg_daily_demand
    let l ← getField r.lead_time_days
    pure (cortex_demand_forecast a l 7)
  match attempt with
  | Except.ok f => Except.ok f
  | Except.error _ => do
      let a ← getField r.avg_daily_demand
      pure { forecast_units := a * 7
             lower_bound := a * 5
             upper_bound := a * 9
             explanation := "Fallback estimate based on historical demand" }

/-- Stock status values used throughout the dashboard. -/
inductive Status where
  | Healthy
  | Warning
  | Critical
  deriving DecidableEq, Repr

/-- Status thresholds of the Actions page
(`snowflake_core/streamlit_app.py` lines 736-744), applied to the
recomputed, unrounded days-to-stockout. -/
def classify_days (new_days : ℚ) : Status :=
  if new_days > 15 then Status.Healthy
  else if new_days > 5 then Status.Warning
  else Status.Critical

/-- One working-table row as touched by the Actions page. -/
structure ActionRow where
  closing_stock : ℚ
  avg_daily_demand : ℚ
  days_to_stockout : ℚ
  stock_status : Status
  deriving DecidableEq, Repr

/-- Embedding of the stock-update block of the Actions page
(`snowflake_core/streamlit_app.py` lines 727-744): add the quantity,
recompute days-to-stockout from the updated stock and
`max(avg_daily_demand, 1)`, store it rounded to one decimal, and
reclassify the status from the unrounded value. -/
def applyAction (r : ActionRow) (quantity : ℚ) : ActionRow :=
  let newStock := r.closing_stock + quantity
  let avg_demand := max r.avg_daily_demand 1
  let new_days := newStock / avg_demand
  { r with
      closing_stock := newStock
      days_to_stockout := pyRound1 new_days
      stock_status := classify_days new_days }

/-- One entry of the in-session action log (lines 750-757). -/
structure LogEntry where
  time : String
  location : String
  item : String
  action : String
  quantity : String
  user : String
  deriving DecidableEq, Repr

/-- The mutable state the Actions-page submit handler touches: the selected
row (with its location and item), and the action log. -/
structure ActionState where
  location : String
  item : String
  row : ActionRow
  action_log : List LogEntry
  deriving DecidableEq, Repr

/-- Model of the Python method `str.strip` with no argument: remove
whitespace from both ends of the string. -/
def pyStrip (s : String) : String :=
  String.mk
    (((s.data.dropWhile Char.isWhitespace).reverse.dropWhile
      Char.isWhitespace).reverse)

/-- Embedding of the Actions-page submit handler (lines 723-757): an empty
or whitespace-only actor name (`if not user.strip()`) is rejected with an
error message and nothing changes; otherwise the row is updated and an
entry is prepended to the log. The returned `Option String` is the message
shown by `st.error`. -/
def submitAction (st : ActionState) (action_type : String) (quantity : ℤ)
    (user : String) (now : String) : ActionState × Option String :=
  if pyStrip user = "" then
    (st, some "Please enter your name or team.")
  else
    ({ st with
        row := applyAction st.row (quantity : ℚ)
        action_log :=
          { time := now
            location := st.location
            item := st.item
            action := action_type
            quantity := "+" ++ toString quantity
            user := user } :: st.action_log },
      none)

/-- Alert severities of the smart-alert page. -/
inductive Severity where
  | Critical
  | Warning
  | Info
  deriving DecidableEq, Repr

/-- One emitted alert (the `Created_At` timestamp is omitted). -/
structure Alert where
  item : String
  alert_type : String
  message : String
  severity : Severity
  deriving DecidableEq, Repr

/-- Embedding of the low-stock rule of `get_smart_alerts`
(`Y_CGZG820LDNV3KF/streamlit_app.py` lines 102-112); the Python guard
`if reorder_point and reorder_point > 0` is equivalent to
`0 < reorder_point` for numbers. -/
def low_stock_alert (item : String) (current reorder_point low_pct : ℚ) :
    Option Alert :=
  if 0 < reorder_point then
    let pct_of_reorder := current / reorder_point * 100
    if pct_of_reorder ≤ low_pct then
      some { item := item
             alert_type := "Low stock"
             message :=
               item ++ " at " ++ fmt1 pct_of_reorder ++ "% of reorder level"
             severity :=
               if pct_of_reorder ≤ low_pct / 2 then Severity.Critical
               else Severity.Warning }
    else none
  else none

/-- One dashboard row with the seven loaded columns
(`snowflake_core/streamlit_app.py` lines 154-164). -/
structure DashRow where
  location : String
  item : String
  closing_stock : ℚ
  avg_daily_demand : ℚ
  days_to_stockout : ℚ
  stock_status : Status
  lead_time_days : ℚ
  deriving DecidableEq, Repr

/-- Row predicate of the early-warning table (line 532):
`df["STOCK_STATUS"].isin(["Critical", "Warning"])`. -/
def risk_filter (r : DashRow) : Bool :=
  match r.stock_status with
  | Status.Critical => true
  | Status.Warning => true
  | Status.Healthy => false

/-- Embedding of `risk_df` (line 532). -/
def risk_df (rows : List DashRow) : List DashRow :=
  rows.filter risk_filter

/-- Rows of the CSV handed to `st.download_button` (lines 599-604):
`risk_df.to_csv(index=False)` serialises the whole `risk_df`. -/
def export_rows (rows : List DashRow) : List DashRow :=
  risk_df rows

/-- Column order of the dataframe at the time of the export: the seven
loaded columns (lines 154-164) followed by the derived columns in creation
order (lines 332-358) and the optimization columns (lines 364-392), all
added before the Dashboard branch at line 401. -/
def df_columns : List String :=
  ["LOCATION", "ITEM", "CLOSING_STOCK", "AVG_DAILY_DEMAND",
   "DAYS_TO_STOCKOUT", "STOCK_STATUS", "LEAD_TIME_DAYS", "AI_FORECAST",
   "FORECAST_7D", "FORECAST_LOW", "FORECAST_HIGH", "AI_EXPLANATION",
   "DAYS_OF_COVER", "STATUS_BADGE", "ITEM_PRIORITY", "OVERSTOCK_RISK",
   "OVERSTOCK_BADGE", "EOQ", "SAFETY_STOCK", "REORDER_POINT",
   "REORDER_RECOMMENDATION"]

/-- Columns of the CSV export: `to_csv` keeps every dataframe column. -/
def export_columns : List String := df_columns

/-- Columns of the on-screen early-warning table (lines 538-547). -/
def risk_table_columns : List String :=
  ["LOCATION", "ITEM", "ITEM_PRIORITY", "STATUS_BADGE", "CLOSING_STOCK",
   "DAYS_TO_STOCKOUT"]

/-- Embedding of `calculate_eoq` (`snowflake_core/streamlit_app.py`
lines 29-38); the Python defaults `ordering_cost = 500`,
`holding_cost = 50` are passed explicitly by callers here. -/
noncomputable def calculate_eoq
    (avg_daily_demand ordering_cost holding_cost : ℝ) : ℝ :=
  let annual_demand := avg_daily_demand * 365
  if annual_demand ≤ 0 then 0
  else pyRound1 (Real.sqrt ((2 * annual_demand * ordering_cost) / holding_cost))

/-- Embedding of `calculate_safety_stock` (lines 41-47); the Python default
`service_level = 1.65` is passed explicitly by callers here. -/
noncomputable def calculate_safety_stock
    (avg_daily_demand lead_time_days service_level : ℝ) : ℝ :=
  let demand_std := avg_daily_demand * 0.3
  pyRound1 (service_level * demand_std * Real.sqrt lead_time_days)

/-- Embedding of `calculate_reorder_point` (lines 50-54). -/
noncomputable def calculate_reorder_point
    (avg_daily_demand lead_time_days safety_stock : ℝ) : ℝ :=
  pyRound1 (avg_daily_demand * lead_time_days + safety_stock)

section Helpers

variable {α : Type*} [LinearOrderedField α] [FloorRing α]

theorem pyRound1_intCast (n : ℤ) : pyRound1 ((n : α)) = n := by
  rw [pyRound1]
  have h : (10 : α) * (n : α) = ((10 * n : ℤ) : α) := by push_cast; ring
  rw [h, rhe_intCast]
  push_cast
  ring

/-- Evaluation of `pyRound1` on the exact tie `(2 n + 1) / 20`: the result
is the even neighbour among the two adjacent multiples of `1 / 10`. -/
theorem pyRound1_odd_half (n : ℕ) :
    pyRound1 (((2 * n + 1 : ℕ) : α) / 20) =
      (if Even n then (n : α) else (n : α) + 1) / 10 := by
  rw [pyRound1]
  have h : (10 : α) * (((2 * n + 1 : ℕ) : α) / 20) = ((n : ℤ) : α) + 1 / 2 := by
    push_cast; ring
  rw [h, rhe_half]
  rcases Nat.even_or_odd n with he | ho
  · rw [if_pos he, if_pos (by exact_mod_cast he)]
    push_cast; ring
  · have h1 : ¬ Even n := Nat.not_even_iff_odd.mpr ho
    have h2 : ¬ Even (n : ℤ) := by
      simpa using h1
    rw [if_neg h1, if_neg h2]
    push_cast; ring

theorem risk_filter_true_iff (r : DashRow) :
    risk_filter r = true ↔
      r.stock_status = Status.Critical ∨ r.stock_status = Status.Warning := by
  cases h : r.stock_status <;> simp [risk_filter, h]

end Helpers

/-- C1: for every `avg_daily_demand ≥ 0` and `lead_time_days ≥ 0`, the
forecast produced by `cortex_demand_forecast` at the default horizon 7
satisfies `lower_bound ≤ forecast_units ≤ upper_bound`; `forecast_units`
is `avg_daily_demand * 7` rounded to one decimal, and the bounds are the
unrounded forecast times `0.8` and `1.2`, each rounded to one decimal. -/
theorem forecast_band_and_rounding (d L : ℚ) (hd : 0 ≤ d) (hL : 0 ≤ L) :
    (cortex_demand_forecast d L 7).lower_bound ≤
      (cortex_demand_forecast d L 7).forecast_units ∧
    (cortex_demand_forecast d L 7).forecast_units ≤
      (cortex_demand_forecast d L 7).upper_bound ∧
    (cortex_demand_forecast d L 7).forecast_units = pyRound1 (d * 7) ∧
    (cortex_demand_forecast d L 7).lower_bound = pyRound1 (d * 7 * 0.8) ∧
    (cortex_demand_forecast d L 7).upper_bound = pyRound1 (d * 7 * 1.2) := by
  refine ⟨?_, ?_, rfl, rfl, rfl⟩
  · exact pyRound1_mono (by nlinarith)
  · exact pyRound1_mono (by nlinarith)

/-- Witness for C1 at the spec scenario `avg_daily_demand = 5`,
`lead_time_days = 7`. -/
theorem forecast_band_and_rounding_witness :
    (cortex_demand_forecast 5 7 7).lower_bound ≤
      (cortex_demand_forecast 5 7 7).forecast_units ∧
    (cortex_demand_forecast 5 7 7).forecast_units ≤
      (cortex_demand_forecast 5 7 7).upper_bound ∧
    (cortex_demand_forecast 5 7 7).forecast_units = pyRound1 (5 * 7) ∧
    (cortex_demand_forecast 5 7 7).lower_bound = pyRound1 (5 * 7 * 0.8) ∧
    (cortex_demand_forecast 5 7 7).upper_bound = pyRound1 (5 * 7 * 1.2) :=
  forecast_band_and_rounding 5 7 (by norm_num) (by norm_num)

/-- C3: after a simulated stock adjustment the Actions page recomputes
days-to-stockout as `(closing_stock + qty) / max avg_daily_demand 1`
(stored rounded to one decimal) and reclassifies the status from the
unrounded value; the classification is total and mutually exclusive with
boundaries at `> 15` and `> 5`; on the row (Oxygen, closing 10, demand 3)
a `+5` action yields closing 15, days 5.0 and status Critical. -/
theorem action_days_and_status_reclassification :
    (∀ (r : ActionRow) (qty : ℚ),
        (applyAction r qty).closing_stock = r.closing_stock + qty ∧
        (applyAction r qty).days_to_stockout =
          pyRound1 ((r.closing_stock + qty) / max r.avg_daily_demand 1) ∧
        (applyAction r qty).stock_status =
          classify_days ((r.closing_stock + qty) / max r.avg_daily_demand 1)) ∧
    (∀ d : ℚ,
        (classify_days d = Status.Healthy ↔ 15 < d) ∧
        (classify_days d = Status.Warning ↔ 5 < d ∧ d ≤ 15) ∧
        (classify_days d = Status.Critical ↔ d ≤ 5)) ∧
    applyAction ⟨10, 3, 3, Status.Critical⟩ 5 = ⟨15, 3, 5, Status.Critical⟩ := by
  refine ⟨fun r qty => ⟨rfl, rfl, rfl⟩, fun d => ?_, ?_⟩
  · refine ⟨?_, ?_, ?_⟩ <;> rw [classify_days] <;> split_ifs with h1 h2 <;>
      simp_all <;> linarith
  · simp only [applyAction, classify_days]
    norm_num
    have h5 := pyRound1_intCast (α := ℚ) 5
    norm_num at h5
    exact h5

/-- C4: whenever `reorder_point > 0` and
`current / reorder_point * 100 ≤ low_pct`, the low-stock rule of
`get_smart_alerts` emits exactly one Low-stock alert whose severity is
Critical precisely when the ratio is `≤ low_pct / 2` (inclusive) and
Warning otherwise; with reorder 100, stock 15, `low_pct` 20 the emitted
alert has severity Warning. -/
theorem low_stock_alert_severity :
    (∀ (item : String) (current reorder_point low_pct : ℚ),
        0 < reorder_point → current / reorder_point * 100 ≤ low_pct →
        low_stock_alert item current reorder_point low_pct =
          some { item := item
                 alert_type := "Low stock"
                 message := item ++ " at " ++
                   fmt1 (current / reorder_point * 100) ++
                   "% of reorder level"
                 severity :=
                   if current / reorder_point * 100 ≤ low_pct / 2
                   then Severity.Critical else Severity.Warning }) ∧
    (low_stock_alert "Insulin" 15 100 20).map Alert.severity =
      some Severity.Warning := by
  constructor
  · intro item current reorder_point low_pct hrp hle
    simp only [low_stock_alert, if_pos hrp, if_pos hle]
  · simp only [low_stock_alert]
    norm_num

/-- Witness for C4 at the spec scenario reorder 100, stock 15,
`low_pct` 20. -/
theorem low_stock_alert_severity_witness :
    low_stock_alert "Oxygen" 15 100 20 =
      some { item := "Oxygen"
             alert_type := "Low stock"
             message := "Oxygen" ++ " at " ++
               fmt1 ((15 : ℚ) / 100 * 100) ++ "% of reorder level"
             severity :=
               if (15 : ℚ) / 100 * 100 ≤ 20 / 2
               then Severity.Critical else Severity.Warning } :=
  low_stock_alert_severity.1 "Oxygen" 15 100 20 (by norm_num) (by norm_num)

/-- C5 counterexample: a row whose `AVG_DAILY_DEMAND` field is missing
makes the forecast computation raise, and `safe_cortex_forecast`
propagates the exception (the `except` handler reads the missing field
again) instead of substituting the fallback. -/
theorem forecast_missing_demand_propagates :
    safe_cortex_forecast ⟨none, some 3⟩ = Except.error "KeyError" := rfl

/-- C5 (amended): when the forecast computation raises but
`AVG_DAILY_DEMAND` is present (the raise is the missing
`LEAD_TIME_DAYS`), the caller substitutes the fallback record with
`forecast_units = avg * 7`, `lower_bound = avg * 5`,
`upper_bound = avg * 9` and the fallback explanation string; with both
fields present the real forecast is returned; when `AVG_DAILY_DEMAND`
itself is missing the exception propagates out of the handler. -/
theorem forecast_fallback_behaviour :
    (∀ a : ℚ, safe_cortex_forecast ⟨some a, none⟩ =
        Except.ok { forecast_units := a * 7
                    lower_bound := a * 5
                    upper_bound := a * 9
                    explanation :=
                      "Fallback estimate based on historical demand" }) ∧
    (∀ a l : ℚ, safe_cortex_forecast ⟨some a, some l⟩ =
        Except.ok (cortex_demand_forecast a l 7)) ∧
    (∀ l : Option ℚ, safe_cortex_forecast ⟨none, l⟩ =
        Except.error "KeyError") :=
  ⟨fun _ => rfl, fun _ _ => rfl, fun _ => rfl⟩

/-- C6 counterexample: the CSV export serialises every dataframe column,
so its column list differs from the six-column on-screen risk table. -/
theorem export_columns_differ_from_screen :
    export_columns ≠ risk_table_columns := by decide

/-- C6 (amended): the downloadable export contains exactly the rows whose
stock status is Critical or Warning, but with all twenty-one dataframe
columns in dataframe order (`to_csv` on the whole `risk_df`), not the
six-column layout (location, item, priority, status badge, closing stock,
days-to-stockout) of the on-screen risk table. -/
theorem export_risk_rows_all_columns :
    (∀ (rows : List DashRow) (r : DashRow),
        r ∈ export_rows rows ↔
          r ∈ rows ∧ (r.stock_status = Status.Critical ∨
            r.stock_status = Status.Warning)) ∧
    export_columns = df_columns ∧
    export_columns ≠ risk_table_columns := by
  refine ⟨?_, rfl, by decide⟩
  intro rows r
  simp [export_rows, risk_df, List.mem_filter, risk_filter_true_iff]

/-- C2 counterexample: the exact result of
`calculate_reorder_point 0.25 1 0` is `0.25`, exactly halfway between
`0.2` and `0.3`; half-up rounding would give `0.3`, but the function
returns `0.2` (Python `round` ties to even). `0.25` is exactly
representable in binary floating point, so the embedded value matches the
source computation. -/
theorem reorder_point_half_rounds_down :
    calculate_reorder_point (1 / 4) 1 0 = 1 / 5 ∧ (1 / 5 : ℝ) ≠ 3 / 10 := by
  constructor
  · simp only [calculate_reorder_point]
    have h : (1 / 4 : ℝ) * 1 + 0 = 1 / 4 := by norm_num
    rw [h, pyRound1]
    have h2 : (10 : ℝ) * (1 / 4) = ((2 : ℤ) : ℝ) + 1 / 2 := by norm_num
    rw [h2, rhe_half]
    norm_num
  · norm_num

/-- C2 (amended): `calculate_eoq`, `calculate_safety_stock` and
`calculate_reorder_point` all round with the same rule, the half-to-even
rule of the Python built-in `round` at one decimal: for every input whose
exact result `(2 n + 1) / 20` lies exactly halfway between two multiples
of `0.1`, each function returns the even multiple (down when `n` is even,
up when `n` is odd), not always the larger one. -/
theorem three_formulas_round_half_to_even (n : ℕ) :
    calculate_eoq ((((2 * n + 1 : ℕ) : ℝ) / 20) ^ 2 / 730) 1 1 =
      (if Even n then (n : ℝ) else (n : ℝ) + 1) / 10 ∧
    calculate_safety_stock 1 4 (((2 * n + 1 : ℕ) : ℝ) / 12) =
      (if Even n then (n : ℝ) else (n : ℝ) + 1) / 10 ∧
    calculate_reorder_point (((2 * n + 1 : ℕ) : ℝ) / 20) 1 0 =
      (if Even n then (n : ℝ) else (n : ℝ) + 1) / 10 := by
  have hpos : (0 : ℝ) < ((2 * n + 1 : ℕ) : ℝ) := by
    exact_mod_cast Nat.succ_pos (2 * n)
  refine ⟨?_, ?_, ?_⟩
  · simp only [calculate_eoq]
    have hb : (0 : ℝ) < ((2 * n + 1 : ℕ) : ℝ) / 20 := by
      push_cast; positivity
    rw [if_neg (not_le.mpr (by linarith [pow_pos hb 2]))]
    have harg : 2 * ((((2 * n + 1 : ℕ) : ℝ) / 20) ^ 2 / 730 * 365) * 1 / 1 =
        ((((2 * n + 1 : ℕ) : ℝ) / 20)) ^ 2 := by ring
    rw [harg, Real.sqrt_sq (by positivity), pyRound1_odd_half]
  · simp only [calculate_safety_stock]
    have h4 : Real.sqrt 4 = 2 := by
      rw [show (4 : ℝ) = 2 ^ 2 by norm_num, Real.sqrt_sq (by norm_num)]
    rw [h4]
    have harg : ((2 * n + 1 : ℕ) : ℝ) / 12 * (1 * 0.3) * 2 =
        ((2 * n + 1 : ℕ) : ℝ) / 20 := by ring
    rw [harg, pyRound1_odd_half]
  · simp only [calculate_reorder_point]
    have harg : ((2 * n + 1 : ℕ) : ℝ) / 20 * 1 + 0 =
        ((2 * n + 1 : ℕ) : ℝ) / 20 := by ring
    rw [harg, pyRound1_odd_half]

/-- C7: `calculate_eoq` returns 0 at zero demand, and for fixed
non-negative ordering cost and positive holding cost it is monotone
non-decreasing in `avg_daily_demand`. -/
theorem eoq_zero_and_monotone :
    (∀ ordering_cost holding_cost : ℝ,
        calculate_eoq 0 ordering_cost holding_cost = 0) ∧
    (∀ ordering_cost holding_cost d1 d2 : ℝ, 0 ≤ ordering_cost →
        0 < holding_cost → d1 ≤ d2 →
        calculate_eoq d1 ordering_cost holding_cost ≤
          calculate_eoq d2 ordering_cost holding_cost) := by
  constructor
  · intro oc hc
    simp only [calculate_eoq]
    norm_num
  · intro oc hc d1 d2 hoc hhc h12
    simp only [calculate_eoq]
    by_cases h1 : d1 * 365 ≤ 0
    · rw [if_pos h1]
      by_cases h2 : d2 * 365 ≤ 0
      · rw [if_pos h2]
      · rw [if_neg h2]
        exact pyRound1_nonneg (Real.sqrt_nonneg _)
    · rw [if_neg h1, if_neg (by intro h2; exact h1 (by nlinarith))]
      refine pyRound1_mono (Real.sqrt_le_sqrt ?_)
      have hnum : 2 * (d1 * 365) * oc ≤ 2 * (d2 * 365) * oc := by nlinarith
      exact div_le_div_of_nonneg_right hnum hhc.le

/-- Witness for C7: zero demand with the default costs, and monotonicity
between demands 1 and 2 with the default costs. -/
theorem eoq_zero_and_monotone_witness :
    calculate_eoq 0 500 50 = 0 ∧
      calculate_eoq 1 500 50 ≤ calculate_eoq 2 500 50 :=
  ⟨eoq_zero_and_monotone.1 500 50,
    eoq_zero_and_monotone.2 500 50 1 2 (by norm_num) (by norm_num)
      (by norm_num)⟩

/-- C9: `calculate_safety_stock` with `lead_time_days = 0` returns 0 for
every demand and service level (the zero lead time goes under the square
root unaltered, and `sqrt 0 = 0`), and `calculate_reorder_point` with
`lead_time_days = 0` and that safety stock also returns 0. -/
theorem zero_lead_time_gives_zero_buffers (d s : ℝ) :
    calculate_safety_stock d 0 s = 0 ∧
      calculate_reorder_point d 0 (calculate_safety_stock d 0 s) = 0 := by
  have hss : calculate_safety_stock d 0 s = 0 := by
    simp only [calculate_safety_stock]
    rw [Real.sqrt_zero, mul_zero, pyRound1_zero]
  refine ⟨hss, ?_⟩
  simp only [calculate_reorder_point, hss]
  rw [mul_zero, add_zero, pyRound1_zero]

/-- C10: for every non-positive demand (negative included),
`calculate_eoq` returns 0: the `annual_demand ≤ 0` guard short-circuits
before the square-root branch. -/
theorem eoq_nonpos_demand_returns_zero (d oc hc : ℝ) (hd : d ≤ 0) :
    calculate_eoq d oc hc = 0 := by
  simp only [calculate_eoq]
  rw [if_pos (by nlinarith)]

/-- Witness for C10 at demand `-1` with the default costs. -/
theorem eoq_nonpos_demand_returns_zero_witness :
    calculate_eoq (-1) 500 50 = 0 :=
  eoq_nonpos_demand_returns_zero (-1) 500 50 (by norm_num)

/-- C8: a submitted action with an empty or whitespace-only actor name is
rejected with the user-visible message and leaves the state unchanged:
the selected row keeps its closing stock, days-to-stockout and status,
and no entry is appended to the action log. -/
theorem empty_actor_name_rejected (st : ActionState) (action_type : String)
    (quantity : ℤ) (user : String) (now : String)
    (h : pyStrip user = "") :
    submitAction st action_type quantity user now =
      (st, some "Please enter your name or team.") := by
  simp only [submitAction, if_pos h]

/-- Witness for C8: a whitespace-only actor name on a concrete state. -/
theorem empty_actor_name_rejected_witness :
    submitAction ⟨"District Hospital", "Oxygen", ⟨10, 3, 3, Status.Critical⟩, []⟩
        "Received stock" 5 "  " "2025-01-01 00:00" =
      (⟨"District Hospital", "Oxygen", ⟨10, 3, 3, Status.Critical⟩, []⟩,
        some "Please enter your name or team.") :=
  empty_actor_name_rejected _ _ _ _ _ (by decide)

end CareStock
